import Mathlib

/-!
# Verification of `@walln/outcomes` (src/src/option.ts, src/src/result.ts)

A shallow embedding of the library's two tagged-union types.  JavaScript
values relevant to the library are modelled by the inductive `JSValue`:
the two absence sentinels (`null`, `undefined`), primitives, host `Error`
objects, the objects produced by the `Some`, `None`, `Ok` and `Err`
constructors, plain object literals with data fields, and zero-argument
function values returning a constant (enough to model thunk defaults and
fake `some` methods).  A JavaScript computation that may `throw` is
modelled as `Except JSValue α`: `.error e` is a throw of the value `e`.

Method calls `o.m(...)` are embedded as Lean functions dispatching on the
receiver; calling a method on a value that does not carry it throws a
`TypeError`, as in JavaScript.
-/

namespace Outcomes

/-- The fragment of JavaScript values the library manipulates. -/
inductive JSValue : Type where
  /-- the `null` sentinel -/
  | vnull : JSValue
  /-- the `undefined` sentinel -/
  | vundef : JSValue
  /-- a number (modelled as an integer) -/
  | vnum : Int → JSValue
  /-- a string -/
  | vstr : String → JSValue
  /-- a boolean -/
  | vbool : Bool → JSValue
  /-- a host `Error`/`TypeError` object, with its constructor name and message -/
  | verrObj : String → String → JSValue
  /-- the object returned by `Some(value)` in option.ts -/
  | vsome : JSValue → JSValue
  /-- the shared `None` singleton of option.ts -/
  | vnone : JSValue
  /-- the object returned by `Ok(value)` in result.ts -/
  | vok : JSValue → JSValue
  /-- the object returned by `Err(error)` in result.ts -/
  | verr : JSValue → JSValue
  /-- a plain object literal with the listed data fields -/
  | vobj : List (String × JSValue) → JSValue
  /-- a zero-argument function value that returns the given constant -/
  | vfunConst : JSValue → JSValue

namespace JSValue

/-- The strict-equality test `value === null`. -/
def isNullV : JSValue → Bool
  | vnull => true
  | _ => false

/-- The strict-equality test `value === undefined`. -/
def isUndefV : JSValue → Bool
  | vundef => true
  | _ => false

/-- The strict-equality test `value === "s"` against a string literal:
true exactly when the value is that string. -/
def strictEqStr : JSValue → String → Bool
  | vstr t, s => t == s
  | _, _ => false

/-- `value === null || value === undefined`: is the value an absence sentinel? -/
def isSentinel : JSValue → Bool
  | vnull => true
  | vundef => true
  | _ => false

/-- The result of JavaScript's `typeof` on a modelled value. -/
def typeofStr : JSValue → String
  | vnull => "object"
  | vundef => "undefined"
  | vnum _ => "number"
  | vstr _ => "string"
  | vbool _ => "boolean"
  | verrObj _ _ => "object"
  | vsome _ => "object"
  | vnone => "object"
  | vok _ => "object"
  | verr _ => "object"
  | vobj _ => "object"
  | vfunConst _ => "function"

/-- JavaScript truthiness (`!!value`) on the modelled fragment. -/
def truthy : JSValue → Bool
  | vnull => false
  | vundef => false
  | vbool b => b
  | vnum n => n != 0
  | vstr s => s != ""
  | _ => true

/-- Property read `value[k]`, returning `undefined` when absent.  Only the
data fields of the library's objects are modelled (`type`, `value`,
`error`); the embedded code reads no other property this way. -/
def getField : JSValue → String → JSValue
  | vsome v, k => if k = "type" then vstr "some" else if k = "value" then v else vundef
  | vnone, k => if k = "type" then vstr "none" else vundef
  | vok v, k => if k = "type" then vstr "value" else if k = "value" then v else vundef
  | verr e, k => if k = "type" then vstr "error" else if k = "error" then e else vundef
  | vobj fields, k => ((fields.lookup k).getD vundef)
  | _, _ => vundef

/-- The `k in value` test on object values.  As with `getField`, only the
data fields of the library's objects are modelled; the embedded code only
ever tests the key `"type"`. -/
def hasField : JSValue → String → Bool
  | vsome _, k => k == "type" || k == "value"
  | vnone, k => k == "type"
  | vok _, k => k == "type" || k == "value"
  | verr _, k => k == "type" || k == "error"
  | vobj fields, k => (fields.lookup k).isSome
  | _, _ => false

end JSValue

open JSValue

/-- `getFnValue(df)` from option.ts lines 17-18:
`typeof df === "function" ? df() : df`. -/
def getFnValue (df : JSValue) : JSValue :=
  match df with
  | .vfunConst r => r
  | v => v

/-- The `Some(value)` constructor from option.ts lines 294-322: throws a
`TypeError` when `value` is `null` or `undefined`, else returns the Some
object wrapping `value`. -/
def Some (value : JSValue) : Except JSValue JSValue :=
  if value.isSentinel then
    .error (.verrObj "TypeError" "Some value cannot be null or undefined")
  else
    .ok (.vsome value)

/-- The shared `None` singleton from option.ts lines 337-356. -/
def None : JSValue := .vnone

/-- The smart constructor `Option(value)` from option.ts lines 379-381
(called `wrap` in the specification):
`value === undefined || value === null ? None : Some(value)`. -/
def wrap (value : JSValue) : Except JSValue JSValue :=
  if value.isSentinel then .ok None else Some value

/-- `isOption(value)` from option.ts lines 388-397.  The source's operator
precedence is kept: the `|| value.type === "none"` disjunct sits outside
the `typeof`/`in` guard of the first disjunct. -/
def isOption (value : JSValue) : Bool :=
  if value.isNullV || value.isUndefV then false
  else
    (value.typeofStr == "object" && value.truthy && value.hasField "type"
        && (value.getField "type").strictEqStr "some")
      || (value.getField "type").strictEqStr "none"

/-- The `Ok(value)` constructor from result.ts lines 404-425. -/
def Ok (value : JSValue) : JSValue := .vok value

/-- The `Err(error)` constructor from result.ts lines 444-463. -/
def Err (error : JSValue) : JSValue := .verr error

/-- Embedding of the method call `value.some()` on an arbitrary JavaScript
value, as performed inside `flatten` (option.ts line 315).  On a real Some
it returns `true`, on the None singleton `false`; on a plain object it
calls the object's `some` field if that field is a function, and throws a
`TypeError` otherwise (in JavaScript, calling a missing or non-callable
property throws). -/
def someMethod : JSValue → Except JSValue JSValue
  | .vsome _ => .ok (.vbool true)
  | .vnone => .ok (.vbool false)
  | .vobj fields =>
      match fields.lookup "some" with
      | Option.some (.vfunConst r) => .ok r
      | _ => .error (.verrObj "TypeError" "value.some is not a function")
  | _ => .error (.verrObj "TypeError" "value.some is not a function")

namespace Opt

/-- Method `unwrap()` of option.ts: Some (line 304) returns the payload;
None (lines 339-341) throws `Error("Cannot unwrap None")`. -/
def unwrap : JSValue → Except JSValue JSValue
  | .vsome v => .ok v
  | .vnone => .error (.verrObj "Error" "Cannot unwrap None")
  | _ => .error (.verrObj "TypeError" "value.unwrap is not a function")

/-- Method `unwrapOr(defaultValue)` of option.ts (lines 305 and 342). -/
def unwrapOr : JSValue → JSValue → Except JSValue JSValue
  | .vsome v, _ => .ok v
  | .vnone, defaultValue => .ok defaultValue
  | _, _ => .error (.verrObj "TypeError" "value.unwrapOr is not a function")

/-- Method `unwrapOrElse(fn)` of option.ts (lines 306 and 343); on None the
thunk is invoked, and the thunk itself may throw. -/
def unwrapOrElse : JSValue → (Unit → Except JSValue JSValue) →
    Except JSValue JSValue
  | .vsome v, _ => .ok v
  | .vnone, fn => fn ()
  | _, _ => .error (.verrObj "TypeError" "value.unwrapOrElse is not a function")

/-- Method `map(fn)` of option.ts: Some (line 307) returns `Some(fn(value))`
(which throws when `fn`'s result is a sentinel); None (line 346) returns
the None singleton without invoking `fn`. -/
def map : JSValue → (JSValue → JSValue) → Except JSValue JSValue
  | .vsome v, fn => Some (fn v)
  | .vnone, _ => .ok None
  | _, _ => .error (.verrObj "TypeError" "value.map is not a function")

/-- Method `mapOr(fn, defaultValue)` of option.ts: Some (line 308) returns
`Some(fn(value))`; None (lines 347-349) returns
`Option(getFnValue(defaultValue))`. -/
def mapOr : JSValue → (JSValue → JSValue) → JSValue → Except JSValue JSValue
  | .vsome v, fn, _ => Some (fn v)
  | .vnone, _, defaultValue => wrap (getFnValue defaultValue)
  | _, _, _ => .error (.verrObj "TypeError" "value.mapOr is not a function")

/-- Method `flatMap(fn)` of option.ts: Some (line 309) returns `fn(value)`
with no fault boundary; None (line 350) returns the None singleton. -/
def flatMap : JSValue → (JSValue → Except JSValue JSValue) →
    Except JSValue JSValue
  | .vsome v, fn => fn v
  | .vnone, _ => .ok None
  | _, _ => .error (.verrObj "TypeError" "value.flatMap is not a function")

/-- Method `okOr(err)` of option.ts: Some (line 311) returns `Ok(value)`;
None (line 352) returns `Err(err)`. -/
def okOr : JSValue → JSValue → Except JSValue JSValue
  | .vsome v, _ => .ok (Ok v)
  | .vnone, err => .ok (Err err)
  | _, _ => .error (.verrObj "TypeError" "value.okOr is not a function")

/-- Method `flatten()` of option.ts: Some (lines 314-319) returns its
payload when `isOption(value) && value.some()` holds (the `&&` short
circuits, and the `value.some()` call may itself throw) and otherwise
throws `TypeError("Cannot flatten a None value")`; None (line 353) returns
the None singleton. -/
def flatten : JSValue → Except JSValue JSValue
  | .vsome value =>
      if isOption value then
        match someMethod value with
        | .error e => .error e
        | .ok r =>
            if r.truthy then .ok value
            else .error (.verrObj "TypeError" "Cannot flatten a None value")
      else .error (.verrObj "TypeError" "Cannot flatten a None value")
  | .vnone => .ok None
  | _ => .error (.verrObj "TypeError" "value.flatten is not a function")

end Opt

namespace Res

/-- Method `unwrap()` of result.ts: Ok (line 408) returns the payload; Err
(lines 448-450) throws the error payload itself. -/
def unwrap : JSValue → Except JSValue JSValue
  | .vok v => .ok v
  | .verr e => .error e
  | _ => .error (.verrObj "TypeError" "value.unwrap is not a function")

/-- Method `unwrapOr(defaultValue)` of result.ts (lines 409 and 451). -/
def unwrapOr : JSValue → JSValue → Except JSValue JSValue
  | .vok v, _ => .ok v
  | .verr _, defaultValue => .ok defaultValue
  | _, _ => .error (.verrObj "TypeError" "value.unwrapOr is not a function")

/-- Method `unwrapOrElse(fn)` of result.ts: Ok (line 410) ignores `fn`; Err
(line 452) returns `fn(error)`, and `fn` itself may throw. -/
def unwrapOrElse : JSValue → (JSValue → Except JSValue JSValue) →
    Except JSValue JSValue
  | .vok v, _ => .ok v
  | .verr e, fn => fn e
  | _, _ => .error (.verrObj "TypeError" "value.unwrapOrElse is not a function")

/-- Method `toOption()` of result.ts: Ok (line 411) returns
`Option(value)` — the smart constructor, not `Some` — and Err (line 453)
returns the None singleton. -/
def toOption : JSValue → Except JSValue JSValue
  | .vok v => wrap v
  | .verr _ => .ok None
  | _ => .error (.verrObj "TypeError" "value.toOption is not a function")

/-- Method `map(fn)` of result.ts: Ok (lines 417-423) evaluates `fn` inside
a `try`/`catch`, returning `Ok(fn(value))` on success and `Err(e)` when
`fn` throws `e`; Err (lines 459-461) returns `Err(error)` without invoking
`fn`. -/
def map : JSValue → (JSValue → Except JSValue JSValue) →
    Except JSValue JSValue
  | .vok v, fn =>
      match fn v with
      | .ok u => .ok (Ok u)
      | .error e => .ok (Err e)
  | .verr e, _ => .ok (Err e)
  | _, _ => .error (.verrObj "TypeError" "value.map is not a function")

/-- Method `flatMap(fn)` of result.ts: Ok (line 414) returns `fn(value)`
with no fault boundary — a throw inside `fn` propagates; Err (line 456)
returns `Err(error)` without invoking `fn`. -/
def flatMap : JSValue → (JSValue → Except JSValue JSValue) →
    Except JSValue JSValue
  | .vok v, fn => fn v
  | .verr e, _ => .ok (Err e)
  | _, _ => .error (.verrObj "TypeError" "value.flatMap is not a function")

end Res

/-- Models the JavaScript callback `x => x * 2` used in the spec's examples:
doubles a number, and is irrelevant elsewhere. -/
def jsDouble : JSValue → JSValue
  | .vnum n => .vnum (2 * n)
  | v => v

/-! ## Claims -/

/-- Claim C1, counterexample: `toOption()` on a Success does not always
return Some of the payload — on `Ok(null)` it returns the None singleton,
because the source routes the payload through the smart constructor
`Option(value)` rather than `Some(value)`. -/
theorem C1_counterexample :
    Res.toOption (Ok .vnull) = .ok .vnone ∧
    Res.toOption (Ok .vnull) ≠ .ok (.vsome .vnull) := by
  constructor
  · rfl
  · intro h
    rw [show Res.toOption (Ok .vnull) = .ok .vnone from rfl] at h
    exact JSValue.noConfusion (Except.ok.inj h)

/-- Claim C1 as amended: `toOption()` on a Success returns the payload
passed through the smart constructor `wrap` — Some of the payload whenever
the payload is not an absence sentinel, and None when it is; on a Failure
it returns None.  `okOr(e)` behaves as the claim states: on Some it
returns a Success wrapping the payload, on None a Failure carrying `e`. -/
theorem C1_toOption_okOr :
    (∀ v : JSValue, Res.toOption (Ok v) = wrap v) ∧
    (∀ v : JSValue, v.isSentinel = false →
        Res.toOption (Ok v) = .ok (.vsome v)) ∧
    (∀ e : JSValue, Res.toOption (Err e) = .ok None) ∧
    (∀ v e : JSValue, Opt.okOr (.vsome v) e = .ok (Ok v)) ∧
    (∀ e : JSValue, Opt.okOr .vnone e = .ok (Err e)) := by
  refine ⟨fun v => rfl, fun v hv => ?_, fun e => rfl, fun v e => rfl,
    fun e => rfl⟩
  simp [Res.toOption, Ok, wrap, Some, hv]

/-- Claim C1, witness for the amended theorem at the payload `7`. -/
theorem C1_toOption_okOr_witness :
    Res.toOption (Ok (.vnum 7)) = .ok (.vsome (.vnum 7)) :=
  C1_toOption_okOr.2.1 (.vnum 7) rfl

/-- Claim C2, counterexample: on a Some, `mapOr` does not wrap the
callback's result through the smart constructor `wrap` — the source calls
`Some(fn(value))` directly, so a sentinel-valued callback result throws the
construction `TypeError` instead of normalizing to None as `wrap` would. -/
theorem C2_counterexample :
    Opt.mapOr (.vsome (.vnum 1)) (fun _ => .vnull) (.vnum 0)
        = .error (.verrObj "TypeError"
            "Some value cannot be null or undefined") ∧
    Opt.mapOr (.vsome (.vnum 1)) (fun _ => .vnull) (.vnum 0)
        ≠ wrap .vnull := by
  refine ⟨rfl, fun h => ?_⟩
  rw [show Opt.mapOr (.vsome (.vnum 1)) (fun _ => .vnull) (.vnum 0)
      = .error (.verrObj "TypeError"
        "Some value cannot be null or undefined") from rfl,
    show wrap .vnull = .ok .vnone from rfl] at h
  exact Except.noConfusion h

/-- Claim C2 as amended: on Some(v), `mapOr(fn, default)` wraps `fn(v)`'s
result via the `Some` constructor directly, so a sentinel-valued result
signals a construction fault rather than being normalized; on None it
evaluates the default (invoking it when it is a zero-argument producer,
else using it directly) and wraps the result via `wrap`; the quoted
examples `none().mapOr(x=>x*2, 0).unwrap() == 0` and
`some(5).mapOr(x=>x*2, 0).unwrap() == 10` hold. -/
theorem C2_mapOr :
    (∀ (v : JSValue) (fn : JSValue → JSValue) (d : JSValue),
        Opt.mapOr (.vsome v) fn d = Some (fn v)) ∧
    (∀ (fn : JSValue → JSValue) (d : JSValue),
        Opt.mapOr .vnone fn d = wrap (getFnValue d)) ∧
    (∀ (fn : JSValue → JSValue) (r : JSValue),
        Opt.mapOr .vnone fn (.vfunConst r) = wrap r) ∧
    ((Opt.mapOr .vnone jsDouble (.vnum 0)).bind Opt.unwrap
        = .ok (.vnum 0)) ∧
    ((Opt.mapOr (.vsome (.vnum 5)) jsDouble (.vnum 0)).bind Opt.unwrap
        = .ok (.vnum 10)) :=
  ⟨fun _ _ _ => rfl, fun _ _ => rfl, fun _ _ => rfl, rfl, rfl⟩

/-- Claim C3: faults are caught by `map` on the success path and converted
to a Failure carrying the thrown value, while `flatMap` installs no fault
boundary and lets the throw propagate. -/
theorem C3_map_catches_flatMap_propagates (v ex : JSValue)
    (fn : JSValue → Except JSValue JSValue) (h : fn v = .error ex) :
    Res.map (Ok v) fn = .ok (Err ex) ∧
    Res.flatMap (Ok v) fn = .error ex := by
  constructor
  · simp [Res.map, Ok, h, Err]
  · simp [Res.flatMap, Ok, h]

/-- Claim C3, witness: a callback that throws the string `"boom"`. -/
theorem C3_map_catches_flatMap_propagates_witness :
    Res.map (Ok (.vnum 1)) (fun _ => .error (.vstr "boom"))
        = .ok (Err (.vstr "boom")) ∧
    Res.flatMap (Ok (.vnum 1)) (fun _ => .error (.vstr "boom"))
        = .error (.vstr "boom") :=
  C3_map_catches_flatMap_propagates (.vnum 1) (.vstr "boom")
    (fun _ => .error (.vstr "boom")) rfl

/-- Claim C4: flattening is one level deep — `some(some(v)).flatten()`
returns the inner Some, `none().flatten()` returns the None singleton
itself, and `some(x).flatten()` throws the "Cannot flatten a None value"
`TypeError` both when `x` fails the library's own Option test (for example
`some(5)`) and when `x` is the inner None. -/
theorem C4_flatten (x : JSValue) (hx : isOption x = false) :
    (∀ v : JSValue, Opt.flatten (.vsome (.vsome v)) = .ok (.vsome v)) ∧
    Opt.flatten .vnone = .ok None ∧
    Opt.flatten (.vsome x)
        = .error (.verrObj "TypeError" "Cannot flatten a None value") ∧
    Opt.flatten (.vsome (.vnum 5))
        = .error (.verrObj "TypeError" "Cannot flatten a None value") ∧
    Opt.flatten (.vsome .vnone)
        = .error (.verrObj "TypeError" "Cannot flatten a None value") ∧
    ((Opt.flatten (.vsome (.vsome (.vnum 5)))).bind Opt.unwrap
        = .ok (.vnum 5)) := by
  refine ⟨fun v => rfl, rfl, ?_, rfl, rfl, rfl⟩
  simp [Opt.flatten, hx]

/-- Claim C4, witness at the non-Option payload `"a"`. -/
theorem C4_flatten_witness :
    Opt.flatten (.vsome (.vstr "a"))
        = .error (.verrObj "TypeError" "Cannot flatten a None value") :=
  (C4_flatten (.vstr "a") rfl).2.2.1

/-- Claim C5: `Some(value)` throws the construction `TypeError` exactly
when `value` is an absence sentinel (`null` or `undefined`), and the smart
constructor (`wrap`, source-named `Option`) returns the None singleton on a
sentinel and a Some wrapping the value otherwise. -/
theorem C5_sentinel_construction :
    (∀ v : JSValue, v.isSentinel = true →
        Some v = .error (.verrObj "TypeError"
          "Some value cannot be null or undefined")) ∧
    (∀ v : JSValue, v.isSentinel = false → Some v = .ok (.vsome v)) ∧
    (∀ v : JSValue, v.isSentinel = true → wrap v = .ok None) ∧
    (∀ v : JSValue, v.isSentinel = false → wrap v = .ok (.vsome v)) := by
  refine ⟨fun v hv => ?_, fun v hv => ?_, fun v hv => ?_, fun v hv => ?_⟩
  · simp [Some, hv]
  · simp [Some, hv]
  · simp [wrap, hv]
  · simp [wrap, Some, hv]

/-- Claim C5, witness at `null`, `undefined` and the payload `3`. -/
theorem C5_sentinel_construction_witness :
    Some .vnull = .error (.verrObj "TypeError"
        "Some value cannot be null or undefined") ∧
    Some (.vnum 3) = .ok (.vsome (.vnum 3)) ∧
    wrap .vundef = .ok None ∧
    wrap (.vnum 3) = .ok (.vsome (.vnum 3)) :=
  ⟨C5_sentinel_construction.1 .vnull rfl,
    C5_sentinel_construction.2.1 (.vnum 3) rfl,
    C5_sentinel_construction.2.2.1 .vundef rfl,
    C5_sentinel_construction.2.2.2 (.vnum 3) rfl⟩

/-- Claim C6: the unwrap family — `Ok(v).unwrap()` returns `v`;
`Err(e).unwrap()` throws the failure payload `e` itself; `None.unwrap()`
throws the fixed "Cannot unwrap None" error; `Err(e).unwrapOr(d)` returns
`d`; `Err(e).unwrapOrElse(f)` returns `f(e)`; and on the success path
`unwrapOrElse` never consults `f`. -/
theorem C6_unwrap_family :
    (∀ v : JSValue, Res.unwrap (Ok v) = .ok v) ∧
    (∀ e : JSValue, Res.unwrap (Err e) = .error e) ∧
    Opt.unwrap None = .error (.verrObj "Error" "Cannot unwrap None") ∧
    (∀ e d : JSValue, Res.unwrapOr (Err e) d = .ok d) ∧
    (∀ (e : JSValue) (f : JSValue → Except JSValue JSValue),
        Res.unwrapOrElse (Err e) f = f e) ∧
    (∀ (v : JSValue) (f : JSValue → Except JSValue JSValue),
        Res.unwrapOrElse (Ok v) f = .ok v) :=
  ⟨fun _ => rfl, fun _ => rfl, rfl, fun _ _ => rfl, fun _ _ => rfl,
    fun _ _ => rfl⟩

/-- Claim C7: functor law — mapping the identity over a Success leaves it a
Success with the same payload, and `map` on a Failure returns a Failure
with the error payload unchanged, for every callback. -/
theorem C7_functor_law :
    (∀ v : JSValue, Res.map (Ok v) (fun x => .ok x) = .ok (Ok v)) ∧
    (∀ (e : JSValue) (f : JSValue → Except JSValue JSValue),
        Res.map (Err e) f = .ok (Err e)) :=
  ⟨fun _ => rfl, fun _ _ => rfl⟩

/-- Claim C8: monad law — `Ok(v).flatMap(f)` is exactly `f(v)`, and
`Err(e).flatMap(f)` is a Failure carrying `e`, for every Kleisli
callback `f`, which is never invoked on the failure branch. -/
theorem C8_monad_law :
    (∀ (v : JSValue) (f : JSValue → Except JSValue JSValue),
        Res.flatMap (Ok v) f = f v) ∧
    (∀ (e : JSValue) (f : JSValue → Except JSValue JSValue),
        Res.flatMap (Err e) f = .ok (Err e)) :=
  ⟨fun _ _ => rfl, fun _ _ => rfl⟩

/-- Claim C9: the smart constructor (`wrap`, source-named `Option`) is
total — on every input, sentinels included, it returns an Option without
throwing, because sentinel inputs are routed to the None singleton before
`Some` is called. -/
theorem C9_wrap_total (v : JSValue) : ∃ w : JSValue, wrap v = .ok w := by
  by_cases h : v.isSentinel = true
  · exact ⟨None, by simp [wrap, h]⟩
  · exact ⟨.vsome v, by simp [wrap, Some, h]⟩

/-- Claim C10, counterexample: a plain object `{type: "some"}` passes the
library's structural `isOption` test, yet `flatten` does not return it —
the subsequent method call `value.some()` throws a `TypeError` because the
fake object has no callable `some` field. -/
theorem C10_counterexample :
    JSValue.getField (.vobj [("type", .vstr "some")]) "type"
        = .vstr "some" ∧
    isOption (.vobj [("type", .vstr "some")]) = true ∧
    Opt.flatten (.vsome (.vobj [("type", .vstr "some")]))
        = .error (.verrObj "TypeError" "value.some is not a function") ∧
    Opt.flatten (.vsome (.vobj [("type", .vstr "some")]))
        ≠ .ok (.vobj [("type", .vstr "some")]) := by
  refine ⟨rfl, rfl, rfl, fun h => ?_⟩
  rw [show Opt.flatten (.vsome (.vobj [("type", .vstr "some")]))
      = .error (.verrObj "TypeError" "value.some is not a function")
      from rfl] at h
  exact Except.noConfusion h

/-- Claim C10 as amended: the nested-Option test used by `flatten` is
structural, not nominal — `Some(x).flatten()` returns `x` unchanged
whenever `x` is a plain object whose `type` field equals `"some"` and
whose `some` field is a zero-argument function returning a truthy value,
even though `x` was never built by the Some constructor; a shaped object
lacking such a callable `some` field instead faults on the method call. -/
theorem C10_flatten_structural (fields : List (String × JSValue))
    (r : JSValue)
    (htype : fields.lookup "type" = Option.some (.vstr "some"))
    (hsome : fields.lookup "some" = Option.some (.vfunConst r))
    (hr : r.truthy = true) :
    Opt.flatten (.vsome (.vobj fields)) = .ok (.vobj fields) := by
  have hopt : isOption (.vobj fields) = true := by
    simp [isOption, JSValue.isNullV, JSValue.isUndefV, JSValue.typeofStr,
      JSValue.truthy, JSValue.hasField, JSValue.getField, htype,
      JSValue.strictEqStr]
  simp [Opt.flatten, hopt, someMethod, hsome, hr]

/-- Claim C10, witness for the amended theorem: the fake object
`\x7btype: "some", some: () => true\x7d` is returned unchanged. -/
theorem C10_flatten_structural_witness :
    Opt.flatten (.vsome (.vobj
        [("type", .vstr "some"), ("some", .vfunConst (.vbool true))]))
      = .ok (.vobj
        [("type", .vstr "some"), ("some", .vfunConst (.vbool true))]) :=
  C10_flatten_structural
    [("type", .vstr "some"), ("some", .vfunConst (.vbool true))]
    (.vbool true) rfl rfl rfl

end Outcomes
